import Mathlib

/-!
Shallow embedding of `src/main.py`, a single-file credit-prediction HTTP
service. Numeric values (Python floats) are modelled as exact rationals `ℚ`;
the opaque trained model and scaler objects are modelled as records of
fallible functions (`Except String`), since any of their operations may raise
an arbitrary exception that the dispatcher catches. Python dictionaries with
insertion order (`self.models`, `self.model_names`) are modelled as
association lists with `List.lookup` for key lookup and the head for
`list(d.keys())[0]`.
-/

/-- An opaque trained classifier (duck-typed in the source): `predict` maps a
numeric matrix to an array of predictions, and `predict_proba`, when the
attribute exists (`hasattr(model, 'predict_proba')` in line 88 of
`src/main.py`), maps a matrix to an array of per-class probability rows.
Either operation may raise, modelled by `Except String`. -/
structure MLModel where
  predict : List (List ℚ) → Except String (List ℚ)
  predict_proba : Option (List (List ℚ) → Except String (List (List ℚ)))

/-- The optional feature scaler: `transform(matrix) -> matrix`, fallible. -/
structure Scaler where
  transform : List (List ℚ) → Except String (List (List ℚ))

/-- State of the `ModelManager` singleton of `src/main.py` lines 39-48:
the loaded-model mapping, the optional scaler, and the display-name mapping. -/
structure ModelManager where
  models : List (String × MLModel)
  scaler : Option Scaler
  model_names : List (String × String)

/-- The fixed display-name dictionary assigned in `ModelManager.__init__`
(`src/main.py` lines 43-47). -/
def default_model_names : List (String × String) :=
  [("logistic_regression", "Regressão Logística"),
   ("random_forest", "Random Forest"),
   ("gradient_boosting", "Gradient Boosting")]

/-- The success payload of `ModelManager.predict` (`src/main.py` lines
102-108), also the shape of `PredictionResponse` (lines 32-37). -/
structure PredictResult where
  prediction : ℚ
  probability : Option ℚ
  confidence : String
  model_used : String
  recommendation : String
deriving DecidableEq, Repr

/-- `fastapi.HTTPException`: a status code plus a detail string. -/
structure HTTPException where
  status_code : Nat
  detail : String
deriving DecidableEq, Repr

deriving instance DecidableEq for Except

/-- Python `max` over a list (line 90 of `src/main.py`): raises
`ValueError` on an empty sequence, else folds binary `max`. -/
def pymax (l : List ℚ) : Option ℚ :=
  match l with
  | [] => none
  | x :: xs => some (xs.foldl max x)

/-- Line 92 of `src/main.py`: `score = probability if probability else
prediction`. Python truthiness: both `None` and `0.0` are falsy, so the
probability is used only when it was computed AND is nonzero. -/
def score_of (probability : Option ℚ) (prediction : ℚ) : ℚ :=
  match probability with
  | some p => if p = 0 then prediction else p
  | none => prediction

/-- Line 93 of `src/main.py`:
`confidence = "Alto" if score >= 0.8 else "Médio" if score >= 0.6 else "Baixo"`. -/
def confidence_of (score : ℚ) : String :=
  if score ≥ 0.8 then "Alto" else if score ≥ 0.6 then "Médio" else "Baixo"

/-- Lines 95-100 of `src/main.py`: the recommendation ladder over the raw
prediction value. -/
def recommendation_of (prediction : ℚ) : String :=
  if prediction ≥ 0.7 then "Aprovação recomendada"
  else if prediction ≥ 0.4 then "Analisar com cuidado"
  else "Não recomendado"

/-- The body of the `try:` block of `ModelManager.predict` (`src/main.py`
lines 80-108), run after model selection with `model_name` already
substituted. Any `Except.error` here corresponds to an exception the
`except` clause catches. Step by step: build the 1-row matrix
(`np.array(features).reshape(1, -1)`, which cannot fail on a numeric list);
apply the scaler if present; look the model up (`self.models[model_name]`,
a `KeyError` if absent); `float(model.predict(X)[0])` (an index error if
the returned array is empty); if the model has `predict_proba`, take the
max of the first probability row (`max` raising on an empty row); finally
assemble the response record, fetching the display name from
`self.model_names[model_name]`. -/
def tryBody (mgr : ModelManager) (model_name : String) (features : List ℚ) :
    Except String PredictResult :=
  match (match mgr.scaler with
         | some s => s.transform [features]
         | none => Except.ok [features]) with
  | Except.error e => Except.error e
  | Except.ok X =>
    match mgr.models.lookup model_name with
    | none => Except.error ("KeyError: " ++ model_name)
    | some model =>
      match model.predict X with
      | Except.error e => Except.error e
      | Except.ok preds =>
        match preds with
        | [] => Except.error "index 0 is out of bounds for axis 0 with size 0"
        | p0 :: _ =>
          match (match model.predict_proba with
                 | none => Except.ok none
                 | some pp =>
                   match pp X with
                   | Except.error e => Except.error e
                   | Except.ok probsRows =>
                     match probsRows with
                     | [] =>
                       Except.error "index 0 is out of bounds for axis 0 with size 0"
                     | probs :: _ =>
                       match pymax probs with
                       | none => Except.error "max() arg is an empty sequence"
                       | some m => Except.ok (some m)) with
          | Except.error e => Except.error e
          | Except.ok probability =>
            match mgr.model_names.lookup model_name with
            | none => Except.error ("KeyError: " ++ model_name)
            | some display =>
              Except.ok
                { prediction := p0
                  probability := probability
                  confidence := confidence_of (score_of probability p0)
                  model_used := display
                  recommendation := recommendation_of p0 }

/-- `ModelManager.predict` (`src/main.py` lines 72-111). Model selection
first (lines 73-77): if the requested name is not a key of `self.models`,
fall back to `list(self.models.keys())[0]`, raising HTTP 503 when the
mapping is empty. Then the `try:` block runs; any exception it raises is
re-raised as HTTP 500 with detail `"Erro: " ++ message` (line 111). -/
def ModelManager.predict (mgr : ModelManager) (features : List ℚ)
    (model_name : String) : Except HTTPException PredictResult :=
  match (if (mgr.models.lookup model_name).isSome then Except.ok model_name
         else
           match mgr.models with
           | [] =>
             Except.error { status_code := 503, detail := "Nenhum modelo disponível" }
           | (k, _) :: _ => Except.ok k : Except HTTPException String) with
  | Except.error e => Except.error e
  | Except.ok chosen =>
    match tryBody mgr chosen features with
    | Except.ok r => Except.ok r
    | Except.error msg =>
      Except.error { status_code := 500, detail := "Erro: " ++ msg }

/-- The fate of one artifact file on disk at startup: absent, present but
failing to deserialize (`joblib.load` raising), or deserializing to a value. -/
inductive ArtifactFile (α : Type) where
  | missing
  | corrupt (msg : String)
  | loaded (value : α)

/-- Whether an artifact file deserializes successfully. -/
def ArtifactFile.is_loaded {α : Type} : ArtifactFile α → Bool
  | ArtifactFile.loaded _ => true
  | _ => false

/-- The filesystem as `load_models` observes it: one scaler file and one
file per model key. -/
structure FileSystem where
  scaler_file : ArtifactFile Scaler
  model_file : String → ArtifactFile MLModel

/-- `ModelManager.__init__` plus `load_models` (`src/main.py` lines 40-70)
as a pure function of the observed filesystem. The scaler loads when its
file exists and deserializes, else stays `None` (the failure only logged);
each of the three keys of `model_names`, in dictionary order, is inserted
into `models` exactly when its file exists and deserializes (a failure only
logged). The function is total: no exception escapes loading. -/
def load_models (fs : FileSystem) : ModelManager :=
  { models :=
      (default_model_names.map Prod.fst).filterMap fun k =>
        match fs.model_file k with
        | ArtifactFile.loaded m => some (k, m)
        | _ => none
    scaler :=
      match fs.scaler_file with
      | ArtifactFile.loaded s => some s
      | _ => none
    model_names := default_model_names }

/-- `PredictionRequest.validate_features` (`src/main.py` lines 25-30):
reject any feature list whose length is not 6. -/
def validate_features (v : List ℚ) : Except String (List ℚ) :=
  if v.length ≠ 6 then Except.error "São necessárias 6 características"
  else Except.ok v

/-- The raw body of a `POST /predict` request: a feature list and an
optional model name. -/
structure RawRequest where
  features : List ℚ
  model_name : Option String

/-- A validated `PredictionRequest` (`src/main.py` lines 21-30): features
that passed the validator, and the model name defaulted to
`"logistic_regression"`. -/
structure PredictionRequest where
  features : List ℚ
  model_name : String

/-- Pydantic construction of `PredictionRequest`: run the field validator
on `features`, apply the default for `model_name`. -/
def parse_request (r : RawRequest) : Except String PredictionRequest :=
  match validate_features r.features with
  | Except.error e => Except.error e
  | Except.ok f =>
    Except.ok { features := f, model_name := r.model_name.getD "logistic_regression" }

/-- How a `POST /predict` request can fail: a pydantic validation error at
the boundary (FastAPI 422), or an `HTTPException` raised by the dispatcher. -/
inductive ApiFailure where
  | validation (msg : String)
  | http (e : HTTPException)
deriving DecidableEq, Repr

/-- The `POST /predict` endpoint (`src/main.py` lines 141-144): pydantic
validates the body before the handler runs; the handler then calls
`model_manager.predict`. -/
def handle_predict (mgr : ModelManager) (raw : RawRequest) :
    Except ApiFailure PredictResult :=
  match parse_request raw with
  | Except.error e => Except.error (ApiFailure.validation e)
  | Except.ok req =>
    match mgr.predict req.features req.model_name with
    | Except.error e => Except.error (ApiFailure.http e)
    | Except.ok r => Except.ok r

/-- A stub model matching the end-to-end example of the spec: fixed
prediction `0.75` and probability row `[0.2, 0.8]`. -/
def stub_model : MLModel :=
  { predict := fun _ => Except.ok [0.75]
    predict_proba := some fun _ => Except.ok [[0.2, 0.8]] }

/-- A manager with only the stub logistic-regression model and no scaler. -/
def stub_manager : ModelManager :=
  { models := [("logistic_regression", stub_model)]
    scaler := none
    model_names := default_model_names }

/-- A manager with an empty model mapping. -/
def empty_manager : ModelManager :=
  { models := []
    scaler := none
    model_names := default_model_names }

/-- A model whose invocation always raises, for exercising the `except`
path. -/
def failing_model : MLModel :=
  { predict := fun _ => Except.error "shape mismatch"
    predict_proba := none }

/-- A manager holding only the failing model. -/
def failing_manager : ModelManager :=
  { models := [("random_forest", failing_model)]
    scaler := none
    model_names := default_model_names }

/-- A model that computes probabilities but whose maximal class probability
is `0.0`, exposing the truthiness test on line 92 of `src/main.py`. -/
def zero_proba_model : MLModel :=
  { predict := fun _ => Except.ok [0.9]
    predict_proba := some fun _ => Except.ok [[0, 0]] }

/-- A manager holding only the zero-probability model. -/
def zero_proba_manager : ModelManager :=
  { models := [("logistic_regression", zero_proba_model)]
    scaler := none
    model_names := default_model_names }

/-- The result of the end-to-end example of the spec on the stub model:
prediction `0.75`, probability `0.8`, and the labels the code derives. -/
def stub_result : PredictResult :=
  { prediction := 0.75
    probability := some 0.8
    confidence := "Alto"
    model_used := "Regressão Logística"
    recommendation := "Aprovação recomendada" }

theorem tryBody_ok_shape (mgr : ModelManager) (name : String)
    (features : List ℚ) (r : PredictResult)
    (h : tryBody mgr name features = Except.ok r) :
    r.confidence = confidence_of (score_of r.probability r.prediction) ∧
    r.recommendation = recommendation_of r.prediction ∧
    mgr.model_names.lookup name = some r.model_used := by
  unfold tryBody at h
  split at h
  · exact absurd h (by simp)
  · split at h
    · exact absurd h (by simp)
    · split at h
      · exact absurd h (by simp)
      · split at h
        · exact absurd h (by simp)
        · split at h
          · exact absurd h (by simp)
          · split at h
            · exact absurd h (by simp)
            · rename_i hdisplay
              rw [Except.ok.injEq] at h
              subst h
              exact ⟨rfl, rfl, hdisplay⟩

theorem predict_cases (mgr : ModelManager) (features : List ℚ)
    (model_name : String) :
    (mgr.models = [] ∧
      mgr.predict features model_name =
        Except.error { status_code := 503, detail := "Nenhum modelo disponível" }) ∨
    (∃ chosen r, tryBody mgr chosen features = Except.ok r ∧
      mgr.predict features model_name = Except.ok r) ∨
    (∃ chosen msg, tryBody mgr chosen features = Except.error msg ∧
      mgr.predict features model_name =
        Except.error { status_code := 500, detail := "Erro: " ++ msg }) := by
  unfold ModelManager.predict
  split
  · rename_i e heq
    split at heq
    · exact absurd heq (by simp)
    · split at heq
      · rename_i hm
        rw [Except.error.injEq] at heq
        subst heq
        exact Or.inl ⟨hm, rfl⟩
      · exact absurd heq (by simp)
  · rename_i chosen heq
    cases htb : tryBody mgr chosen features with
    | ok r =>
      exact Or.inr (Or.inl ⟨chosen, r, htb, rfl⟩)
    | error msg =>
      exact Or.inr (Or.inr ⟨chosen, msg, htb, rfl⟩)

theorem predict_ok_tryBody (mgr : ModelManager) (features : List ℚ)
    (model_name : String) (r : PredictResult)
    (h : mgr.predict features model_name = Except.ok r) :
    ∃ chosen, tryBody mgr chosen features = Except.ok r := by
  rcases predict_cases mgr features model_name with
    ⟨_, hp⟩ | ⟨c, r', htb, hp⟩ | ⟨c, m, htb, hp⟩
  · rw [h] at hp
    exact absurd hp (by simp)
  · rw [h] at hp
    rw [Except.ok.injEq] at hp
    subst hp
    exact ⟨c, htb⟩
  · rw [h] at hp
    exact absurd hp (by simp)

/-- Claim C3: the confidence label is determined from the score by exact
literal thresholds with ties going to the higher band: the high band
("Alto") exactly when `score ≥ 0.8`, the medium band ("Médio") exactly when
`0.6 ≤ score < 0.8`, and the low band ("Baixo") otherwise, so a score of
exactly `0.8` is labeled high and a score of exactly `0.6` is labeled
medium. -/
theorem claim_C3_confidence_bands (s : ℚ) :
    (confidence_of s = "Alto" ↔ s ≥ 0.8) ∧
    (confidence_of s = "Médio" ↔ 0.6 ≤ s ∧ s < 0.8) ∧
    (confidence_of s = "Baixo" ↔ s < 0.6) := by
  by_cases h1 : s ≥ 0.8
  · have e : confidence_of s = "Alto" := by
      unfold confidence_of
      rw [if_pos h1]
    refine ⟨?_, ?_, ?_⟩
    · rw [e]
      exact iff_of_true rfl h1
    · rw [e]
      exact iff_of_false (by decide) (fun hc => absurd hc.2 (not_lt.mpr h1))
    · rw [e]
      exact iff_of_false (by decide) (not_lt.mpr (le_trans (by norm_num) h1))
  · by_cases h2 : s ≥ 0.6
    · have e : confidence_of s = "Médio" := by
        unfold confidence_of
        rw [if_neg h1, if_pos h2]
      refine ⟨?_, ?_, ?_⟩
      · rw [e]
        exact iff_of_false (by decide) h1
      · rw [e]
        exact iff_of_true rfl ⟨h2, not_le.mp h1⟩
      · rw [e]
        exact iff_of_false (by decide) (not_lt.mpr h2)
    · have e : confidence_of s = "Baixo" := by
        unfold confidence_of
        rw [if_neg h1, if_neg h2]
      refine ⟨?_, ?_, ?_⟩
      · rw [e]
        exact iff_of_false (by decide) h1
      · rw [e]
        exact iff_of_false (by decide) (fun hc => h2 hc.1)
      · rw [e]
        exact iff_of_true rfl (not_le.mp h2)

/-- Claim C4: the recommendation is derived from the raw prediction value
and from it alone (it equals `recommendation_of` applied to the returned
prediction, a function that never looks at the probability or score), with
the literal bands: "Aprovação recomendada" when `prediction ≥ 0.7`,
"Analisar com cuidado" when `0.4 ≤ prediction < 0.7`, and "Não recomendado"
otherwise — for every successful `predict` call, whether or not a
probability was computed. -/
theorem claim_C4_recommendation_from_prediction (mgr : ModelManager)
    (features : List ℚ) (model_name : String) (r : PredictResult)
    (h : mgr.predict features model_name = Except.ok r) :
    r.recommendation = recommendation_of r.prediction ∧
    (r.prediction ≥ 0.7 → r.recommendation = "Aprovação recomendada") ∧
    (0.4 ≤ r.prediction → r.prediction < 0.7 →
      r.recommendation = "Analisar com cuidado") ∧
    (r.prediction < 0.4 → r.recommendation = "Não recomendado") := by
  obtain ⟨chosen, htb⟩ := predict_ok_tryBody mgr features model_name r h
  obtain ⟨-, hrec, -⟩ := tryBody_ok_shape mgr chosen features r htb
  refine ⟨hrec, ?_, ?_, ?_⟩
  · intro h7
    rw [hrec]
    unfold recommendation_of
    rw [if_pos h7]
  · intro h4 h7
    rw [hrec]
    unfold recommendation_of
    rw [if_neg (not_le.mpr h7), if_pos h4]
  · intro h4
    rw [hrec]
    unfold recommendation_of
    rw [if_neg (not_le.mpr (h4.trans (by norm_num))),
        if_neg (not_le.mpr h4)]

/-- Witness for C4: on the stub model the prediction is `0.75 ≥ 0.7` and
the recommendation is "Aprovação recomendada". -/
theorem claim_C4_recommendation_from_prediction_witness :
    stub_result.recommendation = recommendation_of stub_result.prediction ∧
    (stub_result.prediction ≥ 0.7 →
      stub_result.recommendation = "Aprovação recomendada") ∧
    (0.4 ≤ stub_result.prediction → stub_result.prediction < 0.7 →
      stub_result.recommendation = "Analisar com cuidado") ∧
    (stub_result.prediction < 0.4 →
      stub_result.recommendation = "Não recomendado") :=
  claim_C4_recommendation_from_prediction stub_manager
    [0.5, 1.2, -0.3, 2, 0, 1] "logistic_regression" stub_result
    (by with_unfolding_all decide)

/-- Claim C6: when the loaded model mapping is empty, `predict` fails with
HTTP 503 "Nenhum modelo disponível" for every feature vector and every
requested model name, and never returns a result. -/
theorem claim_C6_empty_mapping_503 (mgr : ModelManager)
    (h : mgr.models = []) (features : List ℚ) (model_name : String) :
    mgr.predict features model_name =
      Except.error { status_code := 503, detail := "Nenhum modelo disponível" } := by
  have h1 : mgr.models.lookup model_name = none := by
    rw [h]
    rfl
  unfold ModelManager.predict
  rw [h1, h]
  rfl

/-- Witness for C6: the manager that loaded zero models rejects a request
with 503. -/
theorem claim_C6_empty_mapping_503_witness :
    empty_manager.predict [1, 2, 3] "logistic_regression" =
      Except.error { status_code := 503, detail := "Nenhum modelo disponível" } :=
  claim_C6_empty_mapping_503 empty_manager rfl [1, 2, 3] "logistic_regression"

/-- Claim C7: when the requested model is loaded and any step of the
`try:` block (matrix construction, scaling, model invocation, response
assembly) raises with message `msg`, `predict` re-signals it as exactly one
HTTP 500 error whose detail carries the underlying description
(`"Erro: " ++ msg`); no retry happens and no partial result is returned,
since the single `tryBody` run is the only one consulted. -/
theorem claim_C7_internal_error_wrapping (mgr : ModelManager)
    (features : List ℚ) (model_name : String) (msg : String)
    (hpresent : (mgr.models.lookup model_name).isSome = true)
    (hfail : tryBody mgr model_name features = Except.error msg) :
    mgr.predict features model_name =
      Except.error { status_code := 500, detail := "Erro: " ++ msg } := by
  unfold ModelManager.predict
  rw [hpresent]
  simp only [if_true]
  rw [hfail]

set_option maxRecDepth 4000 in
/-- Witness for C7: the failing model's "shape mismatch" exception surfaces
as HTTP 500 with detail "Erro: shape mismatch". -/
theorem claim_C7_internal_error_wrapping_witness :
    failing_manager.predict [1, 2, 3, 4, 5, 6] "random_forest" =
      Except.error { status_code := 500, detail := "Erro: shape mismatch" } :=
  claim_C7_internal_error_wrapping failing_manager [1, 2, 3, 4, 5, 6]
    "random_forest" "shape mismatch" (by with_unfolding_all decide)
    (by with_unfolding_all decide)

/-- Claim C8: `load_models` is a total function of the observed filesystem
(no exception ever escapes it, whatever mixture of missing and corrupt
files it sees, including when zero models load), and the loaded-model
count equals exactly the number of model artifacts among the three known
identifiers that successfully deserialized. -/
theorem claim_C8_load_count (fs : FileSystem) :
    (load_models fs).models.length =
      ((default_model_names.map Prod.fst).filter
        (fun k => (fs.model_file k).is_loaded)).length := by
  cases h1 : fs.model_file "logistic_regression" <;>
    cases h2 : fs.model_file "random_forest" <;>
      cases h3 : fs.model_file "gradient_boosting" <;>
        simp [load_models, default_model_names, ArtifactFile.is_loaded,
          h1, h2, h3, List.filterMap_cons, List.filter_cons]

set_option maxRecDepth 4000 in
/-- Counterexample to claim C1 as stated: with a model whose maximal class
probability is `0.0`, a probability IS computed (the result carries
`probability = some 0`), yet the confidence label is "Alto" — the one
determined by the prediction `0.9` — and not "Baixo", the label of the
computed probability `0`. Line 92 of `src/main.py` tests Python
truthiness (`if probability`), under which the float `0.0` is falsy, not
whether a probability was computed. -/
theorem claim_C1_counterexample :
    zero_proba_manager.predict [0.5, 1.2, -0.3, 2, 0, 1] "logistic_regression" =
      Except.ok
        { prediction := 0.9
          probability := some 0
          confidence := "Alto"
          model_used := "Regressão Logística"
          recommendation := "Aprovação recomendada" } ∧
    confidence_of ((0.9 : ℚ)) = "Alto" ∧ confidence_of 0 = "Baixo" := by
  refine ⟨by with_unfolding_all decide, by with_unfolding_all decide,
          by with_unfolding_all decide⟩

/-- Claim C1 as amended: in every successful `predict` call the confidence
label is computed from a score equal to the probability whenever a
probability was computed AND is nonzero; when no probability was computed,
or the computed probability equals `0.0` (falsy in Python), the score
equals the raw prediction value. -/
theorem claim_C1_amended_score_selection (mgr : ModelManager)
    (features : List ℚ) (model_name : String) (r : PredictResult)
    (h : mgr.predict features model_name = Except.ok r) :
    r.confidence = confidence_of (score_of r.probability r.prediction) ∧
    (∀ p : ℚ, r.probability = some p → p ≠ 0 →
      score_of r.probability r.prediction = p) ∧
    (r.probability = none →
      score_of r.probability r.prediction = r.prediction) ∧
    (r.probability = some 0 →
      score_of r.probability r.prediction = r.prediction) := by
  obtain ⟨chosen, htb⟩ := predict_ok_tryBody mgr features model_name r h
  obtain ⟨hconf, -, -⟩ := tryBody_ok_shape mgr chosen features r htb
  refine ⟨hconf, ?_, ?_, ?_⟩
  · intro p hp hne
    rw [hp]
    simp [score_of, hne]
  · intro hp
    rw [hp]
    rfl
  · intro hp
    rw [hp]
    simp [score_of]

set_option maxRecDepth 4000 in
/-- Witness for the amended C1, at the stub model whose probability row is
`[0.2, 0.8]`: the probability `0.8` is computed and nonzero, and the
confidence comes from it. -/
theorem claim_C1_amended_score_selection_witness :
    stub_result.confidence =
      confidence_of (score_of stub_result.probability stub_result.prediction) ∧
    (∀ p : ℚ, stub_result.probability = some p → p ≠ 0 →
      score_of stub_result.probability stub_result.prediction = p) ∧
    (stub_result.probability = none →
      score_of stub_result.probability stub_result.prediction =
        stub_result.prediction) ∧
    (stub_result.probability = some 0 →
      score_of stub_result.probability stub_result.prediction =
        stub_result.prediction) :=
  claim_C1_amended_score_selection stub_manager [0.5, 1.2, -0.3, 2, 0, 1]
    "logistic_regression" stub_result (by with_unfolding_all decide)

set_option maxRecDepth 4000 in
/-- Counterexample to claim C2 as stated: a successful `predict` call on a
valid 6-element feature vector with the requested model loaded returns a
confidence that is none of the strings "High", "Medium", "Low" and a
recommendation that is none of "Approval recommended", "Review carefully",
"Not recommended" — the code emits the Portuguese strings "Alto" and
"Aprovação recomendada" (`src/main.py` lines 93-100). -/
theorem claim_C2_counterexample :
    stub_manager.predict [0.5, 1.2, -0.3, 2, 0, 1] "logistic_regression" =
      Except.ok stub_result ∧
    stub_result.confidence ≠ "High" ∧
    stub_result.confidence ≠ "Medium" ∧
    stub_result.confidence ≠ "Low" ∧
    stub_result.recommendation ≠ "Approval recommended" ∧
    stub_result.recommendation ≠ "Review carefully" ∧
    stub_result.recommendation ≠ "Not recommended" := by
  refine ⟨by with_unfolding_all decide, ?_, ?_, ?_, ?_, ?_, ?_⟩ <;> decide

/-- Claim C2 as amended: every successful `predict` call (any feature
vector, any requested model identifier) returns a confidence that is
exactly one of the three strings the code emits, "Alto", "Médio", "Baixo",
and a recommendation that is exactly one of "Aprovação recomendada",
"Analisar com cuidado", "Não recomendado". -/
theorem claim_C2_amended_label_membership (mgr : ModelManager)
    (features : List ℚ) (model_name : String) (r : PredictResult)
    (h : mgr.predict features model_name = Except.ok r) :
    (r.confidence = "Alto" ∨ r.confidence = "Médio" ∨
      r.confidence = "Baixo") ∧
    (r.recommendation = "Aprovação recomendada" ∨
      r.recommendation = "Analisar com cuidado" ∨
      r.recommendation = "Não recomendado") := by
  obtain ⟨chosen, htb⟩ := predict_ok_tryBody mgr features model_name r h
  obtain ⟨hconf, hrec, -⟩ := tryBody_ok_shape mgr chosen features r htb
  constructor
  · rw [hconf]
    unfold confidence_of
    split
    · exact Or.inl rfl
    · split
      · exact Or.inr (Or.inl rfl)
      · exact Or.inr (Or.inr rfl)
  · rw [hrec]
    unfold recommendation_of
    split
    · exact Or.inl rfl
    · split
      · exact Or.inr (Or.inl rfl)
      · exact Or.inr (Or.inr rfl)

set_option maxRecDepth 4000 in
/-- Witness for the amended C2, at the stub model: confidence "Alto",
recommendation "Aprovação recomendada". -/
theorem claim_C2_amended_label_membership_witness :
    (stub_result.confidence = "Alto" ∨ stub_result.confidence = "Médio" ∨
      stub_result.confidence = "Baixo") ∧
    (stub_result.recommendation = "Aprovação recomendada" ∨
      stub_result.recommendation = "Analisar com cuidado" ∨
      stub_result.recommendation = "Não recomendado") :=
  claim_C2_amended_label_membership stub_manager [0.5, 1.2, -0.3, 2, 0, 1]
    "logistic_regression" stub_result (by with_unfolding_all decide)

/-- Claim C5: for every feature vector, if the requested model identifier
is not a key of the loaded model mapping but the mapping is non-empty,
`predict` substitutes the first model identifier in the mapping's
insertion order (`list(self.models.keys())[0]`), and — whenever the
inference steps on that substitute succeed — returns that run's result,
whose `model_used` field is the substitute's display name in the
`model_names` mapping. -/
theorem claim_C5_fallback_first_model (mgr : ModelManager) (features : List ℚ)
    (requested : String) (k₀ : String) (m₀ : MLModel)
    (rest : List (String × MLModel)) (r : PredictResult)
    (habsent : mgr.models.lookup requested = none)
    (hmodels : mgr.models = (k₀, m₀) :: rest)
    (hrun : tryBody mgr k₀ features = Except.ok r) :
    mgr.predict features requested = Except.ok r ∧
    mgr.model_names.lookup k₀ = some r.model_used := by
  refine ⟨?_, (tryBody_ok_shape mgr k₀ features r hrun).2.2⟩
  unfold ModelManager.predict
  rw [habsent, hmodels]
  simp only [Option.isSome_none, Bool.false_eq_true, if_false]
  rw [hrun]

set_option maxRecDepth 4000 in
/-- Witness for C5: requesting the unloaded "random_forest" from the
manager holding only the stub "logistic_regression" succeeds with the
stub model and reports "Regressão Logística". -/
theorem claim_C5_fallback_first_model_witness :
    stub_manager.predict [0.5, 1.2, -0.3, 2, 0, 1] "random_forest" =
      Except.ok stub_result ∧
    stub_manager.model_names.lookup "logistic_regression" =
      some stub_result.model_used :=
  claim_C5_fallback_first_model stub_manager [0.5, 1.2, -0.3, 2, 0, 1]
    "random_forest" "logistic_regression" stub_model [] stub_result
    rfl rfl (by with_unfolding_all decide)

/-- Claim C9: a caller-supplied feature vector whose length is not exactly
6 is rejected by the pydantic validator with the validation error before
`ModelManager.predict` is ever reached, and conversely any request that
passes validation — hence any request the HTTP layer forwards to the
dispatcher — carries exactly 6 features. -/
theorem claim_C9_feature_arity_validation (mgr : ModelManager)
    (raw : RawRequest) :
    (raw.features.length ≠ 6 →
      handle_predict mgr raw =
        Except.error (ApiFailure.validation "São necessárias 6 características")) ∧
    (∀ req : PredictionRequest, parse_request raw = Except.ok req →
      req.features.length = 6) := by
  constructor
  · intro h
    unfold handle_predict parse_request validate_features
    rw [if_pos h]
  · intro req hreq
    unfold parse_request validate_features at hreq
    by_cases h6 : raw.features.length ≠ 6
    · rw [if_pos h6] at hreq
      exact absurd hreq (by simp)
    · rw [if_neg h6] at hreq
      have hreq2 :
          Except.ok { features := raw.features,
                      model_name := raw.model_name.getD "logistic_regression" } =
            (Except.ok req : Except String PredictionRequest) := hreq
      rw [Except.ok.injEq] at hreq2
      subst hreq2
      exact not_not.mp h6

/-- Witness for C9: a 5-element feature vector is rejected at the boundary
with the validation message, whatever the loaded models are. -/
theorem claim_C9_feature_arity_validation_witness :
    handle_predict stub_manager { features := [1, 2, 3, 4, 5], model_name := none } =
      Except.error (ApiFailure.validation "São necessárias 6 características") :=
  (claim_C9_feature_arity_validation stub_manager
    { features := [1, 2, 3, 4, 5], model_name := none }).1 (by decide)

/-- Claim C10: `ModelManager.predict` itself performs no feature-count
check: for a feature list of any length, given a non-empty model mapping,
it runs the inference pipeline and either returns a result or fails with
the HTTP 500 internal error wrapping the pipeline's message — never with a
validation error and never with the 503 no-model error. -/
theorem claim_C10_no_arity_check (mgr : ModelManager) (features : List ℚ)
    (model_name : String) (h : mgr.models ≠ []) :
    (∃ r, mgr.predict features model_name = Except.ok r) ∨
    (∃ msg, mgr.predict features model_name =
      Except.error { status_code := 500, detail := "Erro: " ++ msg }) := by
  rcases predict_cases mgr features model_name with
    ⟨hm, -⟩ | ⟨c, r, -, hp⟩ | ⟨c, m, -, hp⟩
  · exact absurd hm h
  · exact Or.inl ⟨r, hp⟩
  · exact Or.inr ⟨m, hp⟩

/-- Witness for C10: a 1-element feature vector handed directly to the
dispatcher with a model loaded is not rejected as a validation error; it
reaches the model and here even succeeds. -/
theorem claim_C10_no_arity_check_witness :
    stub_manager.models ≠ [] ∧
    ((∃ r, stub_manager.predict [1] "logistic_regression" = Except.ok r) ∨
     (∃ msg, stub_manager.predict [1] "logistic_regression" =
       Except.error { status_code := 500, detail := "Erro: " ++ msg })) :=
  ⟨List.cons_ne_nil _ _,
   claim_C10_no_arity_check stub_manager [1] "logistic_regression"
     (List.cons_ne_nil _ _)⟩
